import Mathlib

/-!
Verification of the runtime inventory and lifecycle command layer of
MikeTeddyOmondi/bollard-docker-client (src/main.rs).

The embedding models the three dispatcher branches of `main`:
`img list` (list images, lines 107-138), `ps info` (list running
containers, lines 142-194) and `ps kill` (lines 196-204), together with
the per-record row construction each listing loop performs.

Modelling conventions:
* Rust `String`/`&str` values are lists of characters (`Str`); byte
  slicing `[..n]` is modelled character-wise, which coincides with Rust
  on the ASCII identifiers the Docker daemon produces (a Rust byte
  slice would also abort on a non-ASCII char boundary; that refinement
  is not needed by any property below).
* A Rust panic (a failed `unwrap`, or an out-of-range slice) is the
  `panicked` constructor; its message is descriptive, not a byte-exact
  copy of the Rust runtime message.
* A transport call that was `.await`ed is a function argument of type
  `Except Str _` (the response or the transport error); `?` maps the
  error onto `CmdOutcome.err` (the value `main` returns), while
  `.unwrap()` maps it onto `CmdOutcome.panicked`. A future that is
  built but never awaited executes nothing; the request value it would
  have carried is recorded separately from the executed requests.
* `i64` values are `Int`; Rust integer division `/` rounds toward
  zero, which is `Int.tdiv`.
-/

/-- Character-list model of a Rust string. -/
abbrev Str := List Char

/-- Outcome of a pure in-loop computation: either a value, or a Rust
panic (process abort). The row-construction code in `main` has no
error channel of its own; its only failure mode is `unwrap` and slice
panics. -/
inductive RunResult (α : Type) where
  | ok : α → RunResult α
  | panicked : Str → RunResult α
  deriving DecidableEq

/-- True exactly on the `panicked` constructor. -/
def RunResult.isPanicked {α : Type} : RunResult α → Bool
  | .panicked _ => true
  | .ok _ => false

/-- Outcome of a whole dispatcher branch: the value returned from
`main` on success, an `Err` propagated by `?`, or a process abort from
a panic. -/
inductive CmdOutcome (α : Type) where
  | ok : α → CmdOutcome α
  | err : Str → CmdOutcome α
  | panicked : Str → CmdOutcome α
  deriving DecidableEq

/-- Raw image record (bollard `ImageSummary`, the three fields the
loop at main.rs:120-125 destructures): `id` is the prefixed content
hash, `size` the byte size as `i64`, `repo_tags` the possibly empty
tag list. -/
structure ImageSummary where
  id : Str
  size : Int
  repo_tags : List Str
  deriving DecidableEq

/-- Raw container record (bollard `ContainerSummary`, the four fields
the loop at main.rs:166-172 destructures); every field is optional. -/
structure ContainerSummary where
  id : Option Str
  names : Option (List Str)
  image : Option Str
  state : Option Str
  deriving DecidableEq

/-- Options of a kill request (bollard `KillContainerOptions`). -/
structure KillContainerOptions where
  signal : Str
  deriving DecidableEq

/-- Options of a list-images request (bollard `ListImagesOptions`);
the field defaults model `Default::default()`. The filter map is
modelled as an association list. -/
structure ListImagesOptions where
  all : Bool := false
  filters : List (Str × List Str) := []
  digests : Bool := false
  deriving DecidableEq

/-- Options of a list-containers request (bollard
`ListContainersOptions`); the field defaults model
`Default::default()`. -/
structure ListContainersOptions where
  all : Bool := false
  limit : Option Int := none
  size : Bool := false
  filters : List (Str × List Str) := []
  deriving DecidableEq

/-- A request value handed to the transport client (`Docker`). -/
inductive Request where
  | listImages (options : Option ListImagesOptions)
  | listContainers (options : Option ListContainersOptions)
  | killContainer (container_name : Str) (options : Option KillContainerOptions)
  deriving DecidableEq

/-- Filter map built at main.rs:143-144: `HashMap::new()` followed by
`insert("status", vec!["running"])`. -/
def list_container_filters : List (Str × List Str) :=
  [("status".toList, ["running".toList])]

/-- Options of the `list_images` call at main.rs:109-112: `all: true`,
everything else defaulted. -/
def img_list_options : ListImagesOptions :=
  { all := true }

/-- Options of the `list_containers` call at main.rs:147-151:
`all: true`, the status filter, everything else defaulted. -/
def ps_info_options : ListContainersOptions :=
  { all := true, filters := list_container_filters }

/-- The request the `img list` branch issues and awaits
(main.rs:108-114). -/
def img_list_request : Request :=
  Request.listImages (some img_list_options)

/-- The request the `ps info` branch issues and awaits
(main.rs:146-152). -/
def ps_info_request : Request :=
  Request.listContainers (some ps_info_options)

/-- Header row of the image table (main.rs:118). -/
def imageHeader : List Str :=
  ["ID".toList, "Image Tag".toList, "Size(KB)".toList]

/-- Header row of the container table (main.rs:163-164). -/
def containerHeader : List Str :=
  ["ID".toList, "Container Name".toList, "Image".toList, "State".toList]

/-- Decimal rendering of an `i64`, as in Rust `to_string()`. -/
def int_to_str (i : Int) : Str :=
  (toString i).toList

/-- Row construction of the `img list` loop body (main.rs:121-125):
`Cell::new(&id.strip_prefix("sha256:").unwrap()[..12])`,
`Cell::new(repo_tags.iter().next().unwrap())`,
`Cell::new(&(size / (1024 as i64)).to_string())`.
The cells are evaluated in order, so a missing prefix aborts first,
then an out-of-range slice of the remainder, then the unwrap of an
empty tag list. -/
def normalize_image (img : ImageSummary) : RunResult (List Str) :=
  if List.isPrefixOf "sha256:".toList img.id then
    if (img.id.drop 7).length < 12 then
      RunResult.panicked "byte index 12 is out of bounds".toList
    else
      match img.repo_tags.head? with
      | none => RunResult.panicked "called Option unwrap on a None value".toList
      | some tag =>
          RunResult.ok [(img.id.drop 7).take 12, tag, int_to_str (Int.tdiv img.size 1024)]
  else
    RunResult.panicked "called Option unwrap on a None value".toList

/-- Name cell of the `ps info` loop body (main.rs:176-182):
`names.as_ref().map_or_else(|| "n/a".to_string(), |vec| vec.join(", "))`
followed by `.strip_prefix("/")` and `.unwrap_or_else(|| "n/a")`.
`strip_prefix("/")` yields the remainder when the joined string begins
with the one character "/", and `None` otherwise, in which case the
fallback "n/a" is used. -/
def nameCell (names : Option (List Str)) : Str :=
  let joined : Str :=
    match names with
    | none => "n/a".toList
    | some vec => List.intercalate ", ".toList vec
  match joined with
  | c :: restOfName => if c = '/' then restOfName else "n/a".toList
  | [] => "n/a".toList

/-- Row construction of the `ps info` loop body (main.rs:174-185). The
first cell is `&id.as_deref().unwrap_or("")[..12]`: the identifier is
defaulted to the empty string and then sliced to 12, and the slice
aborts whenever the defaulted identifier is shorter than 12
characters. The other three cells are total. -/
def normalize_container (c : ContainerSummary) : RunResult (List Str) :=
  let id0 := c.id.getD []
  if id0.length < 12 then
    RunResult.panicked "byte index 12 is out of bounds".toList
  else
    RunResult.ok [id0.take 12, nameCell c.names, c.image.getD [], c.state.getD []]

/-- Sequential row accumulation of a listing loop: each record is
normalized in order and appended to the table; the first panic aborts
the whole loop. -/
def build_rows {α β : Type} (f : α → RunResult β) : List α → RunResult (List β)
  | [] => RunResult.ok []
  | r :: rs =>
    match f r with
    | .panicked msg => RunResult.panicked msg
    | .ok row =>
      match build_rows f rs with
      | .panicked msg => RunResult.panicked msg
      | .ok rows => RunResult.ok (row :: rows)

/-- The `img list` branch (main.rs:107-138) as a function of the
transport response to `img_list_request`. The response is unwrapped
(`.await.unwrap()`, main.rs:113-114), so a transport error aborts the
process instead of being returned; on success the printed table is the
header followed by one row per record. -/
def img_list : Except Str (List ImageSummary) → CmdOutcome (List (List Str))
  | .error e => CmdOutcome.panicked e
  | .ok images =>
    match build_rows normalize_image images with
    | .panicked msg => CmdOutcome.panicked msg
    | .ok rows => CmdOutcome.ok (imageHeader :: rows)

/-- The `ps info` branch (main.rs:142-194) as a function of the
transport response to `ps_info_request`. The response is propagated
with `?` (main.rs:152), so a transport error becomes the value `main`
returns; on success the printed table is the header followed by one
row per record. -/
def ps_info : Except Str (List ContainerSummary) → CmdOutcome (List (List Str))
  | .error e => CmdOutcome.err e
  | .ok containers =>
    match build_rows normalize_container containers with
    | .panicked msg => CmdOutcome.panicked msg
    | .ok rows => CmdOutcome.ok (containerHeader :: rows)

/-- Escaping of one character under Rust `Debug` formatting of a
string (`{:?}`): quote, backslash and the common control characters
are escaped; other printable characters stand for themselves. (Rust
additionally unicode-escapes the remaining non-printable code points;
no property below evaluates those.) -/
def rustDebugChar (c : Char) : Str :=
  if c = '"' then ['\\', '"']
  else if c = '\\' then ['\\', '\\']
  else if c = '\n' then ['\\', 'n']
  else if c = '\t' then ['\\', 't']
  else if c = '\r' then ['\\', 'r']
  else [c]

/-- Rust `Debug` rendering of a string: the escaped characters wrapped
in double quotes. -/
def rustDebug (s : Str) : Str :=
  '"' :: (s.map rustDebugChar).flatten ++ ['"']

/-- The answer the transport would give to a kill request, if the
request were driven to completion. -/
inductive KillOutcome where
  | success
  | noSuchContainer
  | transportFailure (msg : Str)
  deriving DecidableEq

/-- Observable behaviour of one dispatcher branch run: the requests
actually executed against the transport, the futures that were built
but dropped without being awaited (which therefore execute nothing),
the lines printed, and the value returned from `main`. -/
structure KillTrace where
  requestsSent : List Request
  droppedFutures : List Request
  printed : List Str
  result : CmdOutcome Unit
  deriving DecidableEq

/-- The `ps kill` branch (main.rs:196-204) as a function of the
container name and of the answer the transport would give. The source
is
`let options = KillContainerOptions { signal: "SIGTERM" };` followed by
`let _ = &docker.kill_container(container_name, Some(options));` and
`Ok(println!("Kills Container ID: {container_name:?}"))`.
`kill_container` is an async method: the statement builds the future
carrying the request and binds a reference to `_`, but never awaits
it, so the request is dropped unexecuted and `outcome` is never
observed; the confirmation line then prints unconditionally and the
branch returns `Ok(())`. -/
def ps_kill (container_name : Str) (_outcome : KillOutcome) : KillTrace :=
  let options : KillContainerOptions := { signal := "SIGTERM".toList }
  { requestsSent := []
  , droppedFutures := [Request.killContainer container_name (some options)]
  , printed := ["Kills Container ID: ".toList ++ rustDebug container_name]
  , result := CmdOutcome.ok () }

/-- Auxiliary: a successful listing loop yields one row per record. -/
theorem build_rows_length {α β : Type} (f : α → RunResult β) :
    ∀ (rs : List α) (rows : List β),
      build_rows f rs = RunResult.ok rows → rows.length = rs.length := by
  intro rs
  induction rs with
  | nil =>
    intro rows h
    simp [build_rows] at h
    simp [← h]
  | cons a as ih =>
    intro rows h
    unfold build_rows at h
    cases hf : f a with
    | panicked m => rw [hf] at h; cases h
    | ok row =>
      rw [hf] at h
      cases hr : build_rows f as with
      | panicked m => rw [hr] at h; cases h
      | ok rows0 =>
        rw [hr] at h
        cases h
        simp [ih rows0 hr]

/-- Auxiliary: in a successful listing loop, the row at position `i`
is the normalization of the record at position `i`. -/
theorem build_rows_index {α β : Type} (f : α → RunResult β) :
    ∀ (rs : List α) (rows : List β) (i : Nat) (r : α) (row : β),
      build_rows f rs = RunResult.ok rows → rs[i]? = some r →
      rows[i]? = some row → f r = RunResult.ok row := by
  intro rs
  induction rs with
  | nil => intro rows i r row h h1 h2; simp at h1
  | cons a as ih =>
    intro rows i r row h h1 h2
    unfold build_rows at h
    cases hf : f a with
    | panicked m => rw [hf] at h; cases h
    | ok row0 =>
      rw [hf] at h
      cases hr : build_rows f as with
      | panicked m => rw [hr] at h; cases h
      | ok rows0 =>
        rw [hr] at h
        cases h
        cases i with
        | zero =>
          simp at h1 h2
          rw [← h1, ← h2] at *
          exact hf
        | succ n =>
          simp at h1 h2
          exact ih rows0 n r row hr h1 h2

/-- Auxiliary: a listing loop in which every record normalizes
succeeds as a whole. -/
theorem build_rows_total {α β : Type} (f : α → RunResult β) :
    ∀ rs : List α, (∀ r ∈ rs, ∃ row, f r = RunResult.ok row) →
      ∃ rows, build_rows f rs = RunResult.ok rows := by
  intro rs
  induction rs with
  | nil => intro _; exact ⟨[], rfl⟩
  | cons a as ih =>
    intro h
    obtain ⟨row, hrow⟩ := h a (by simp)
    obtain ⟨rows, hrows⟩ := ih (fun r hr => h r (by simp [hr]))
    exact ⟨row :: rows, by simp [build_rows, hrow, hrows]⟩

/-- Auxiliary: a container record whose defaulted identifier has at
least 12 characters normalizes without aborting. -/
theorem normalize_container_ok (c : ContainerSummary)
    (h : 12 ≤ (c.id.getD []).length) :
    normalize_container c
      = RunResult.ok [(c.id.getD []).take 12, nameCell c.names,
          c.image.getD [], c.state.getD []] := by
  have h' : ¬ (c.id.getD []).length < 12 := by omega
  simp [normalize_container, h']

/-- C1: the claim states that the container row construction succeeds
on every combination of present/absent fields, yielding an empty
short-ID placeholder when the identifier is absent. The code refutes
it: on a record with no identifier, `id.as_deref().unwrap_or("")` is
the empty string and the slice `[..12]` of it aborts the process, so
no row (and no table) is produced. This theorem evaluates the branch
at the failing input. -/
theorem normalize_container_missing_id_aborts :
    normalize_container ⟨none, none, none, none⟩
      = RunResult.panicked "byte index 12 is out of bounds".toList ∧
    ps_info (Except.ok [⟨none, none, none, none⟩])
      = CmdOutcome.panicked "byte index 12 is out of bounds".toList := by
  exact ⟨rfl, rfl⟩

/-- C2: the claim states that one kill request with signal "SIGTERM"
and target "web-1" is sent to the transport. The code refutes it: the
`kill_container` future is built with exactly those values but bound
to `_` and never awaited, so zero requests are executed; only the
confirmation line is printed. This theorem evaluates the branch at the
failing input. -/
theorem ps_kill_request_never_sent :
    (ps_kill "web-1".toList KillOutcome.success).requestsSent = [] ∧
    (ps_kill "web-1".toList KillOutcome.success).droppedFutures
      = [Request.killContainer "web-1".toList (some { signal := "SIGTERM".toList })] ∧
    (ps_kill "web-1".toList KillOutcome.success).printed
      = ["Kills Container ID: \"web-1\"".toList] := by
  exact ⟨rfl, rfl, rfl⟩

/-- C3 counterexample: at a record with a well-formed hash identifier,
one tag and size -1, the produced short ID is not the 13th-24th
characters of the identifier (the prefix "sha256:" is 7 characters
long, not 12), and the produced size cell is not floor(bytes / 1024)
(Rust division rounds toward zero). -/
theorem normalize_image_claim_counterexample :
    normalize_image
        ⟨"sha256:0123456789abcdef0123456789abcdef0123456789abcdef0123456789abcdef".toList,
          -1, ["app:latest".toList]⟩
      = RunResult.ok ["0123456789ab".toList, "app:latest".toList, "0".toList] ∧
    "0123456789ab".toList
      ≠ (("sha256:0123456789abcdef0123456789abcdef0123456789abcdef0123456789abcdef".toList).drop 12).take 12 ∧
    "0".toList ≠ int_to_str (Int.fdiv (-1) 1024) := by
  refine ⟨by decide, by decide, by decide⟩

/-- C3 (amended): for every image record whose identifier starts with
"sha256:" followed by at least 12 characters and whose tag list is
non-empty, the row is the first 12 characters after the 7-character
prefix (the 8th-19th characters of the identifier), the first tag, and
bytes / 1024 rounded toward zero — which agrees with
floor(bytes / 1024) whenever the size is non-negative. -/
theorem normalize_image_wellformed_row (img : ImageSummary) (tag : Str)
    (h1 : List.isPrefixOf "sha256:".toList img.id = true)
    (h2 : 12 ≤ (img.id.drop 7).length)
    (h3 : img.repo_tags.head? = some tag) :
    normalize_image img
      = RunResult.ok [(img.id.drop 7).take 12, tag, int_to_str (Int.tdiv img.size 1024)] ∧
    (0 ≤ img.size → Int.tdiv img.size 1024 = Int.fdiv img.size 1024) := by
  constructor
  · have h2' : ¬ (img.id.drop 7).length < 12 := by omega
    unfold normalize_image
    rw [if_pos h1, if_neg h2', h3]
  · intro hs
    exact (Int.fdiv_eq_tdiv hs (by decide)).symm

/-- Witness for the amended C3 theorem at a concrete record. -/
theorem normalize_image_wellformed_row_witness :
    normalize_image
        ⟨"sha256:0123456789abcdef0123456789abcdef0123456789abcdef0123456789abcdef".toList,
          2048000, ["app:latest".toList]⟩
      = RunResult.ok
          [(("sha256:0123456789abcdef0123456789abcdef0123456789abcdef0123456789abcdef".toList).drop 7).take 12,
            "app:latest".toList, int_to_str (Int.tdiv 2048000 1024)] ∧
    ((0:Int) ≤ 2048000 → Int.tdiv (2048000:Int) 1024 = Int.fdiv (2048000:Int) 1024) :=
  normalize_image_wellformed_row _ _ (by decide) (by decide) (by decide)

/-- C4 counterexample: on an identifier without the "sha256:" prefix,
and likewise on an empty tag list, the image row construction panics
(aborting the process); the claim that it fails with an error value
surfaced to the caller and never panics is false. -/
theorem normalize_image_malformed_counterexample :
    (normalize_image ⟨"abc123def456".toList, 2048, ["app:latest".toList]⟩).isPanicked = true ∧
    (normalize_image
        ⟨"sha256:0123456789abcdef0123456789abcdef0123456789abcdef0123456789abcdef".toList,
          2048, []⟩).isPanicked = true := by
  refine ⟨by decide, by decide⟩

/-- C4 (amended): on every image record whose identifier lacks the
"sha256:" prefix or whose tag list is empty, the row construction
never produces a row or placeholder — it fails by panicking (the
`unwrap` calls abort the process) rather than by returning an error
value to the caller. -/
theorem normalize_image_malformed_aborts (img : ImageSummary)
    (h : List.isPrefixOf "sha256:".toList img.id = false ∨ img.repo_tags = []) :
    (normalize_image img).isPanicked = true := by
  unfold normalize_image
  cases h with
  | inl h =>
    rw [if_neg (by simp only [h]; exact Bool.false_ne_true)]
    rfl
  | inr h =>
    by_cases hp : List.isPrefixOf "sha256:".toList img.id = true
    · rw [if_pos hp]
      by_cases hl : (img.id.drop 7).length < 12
      · rw [if_pos hl]
        rfl
      · rw [if_neg hl, h]
        rfl
    · rw [if_neg hp]
      rfl

/-- Witness for the amended C4 theorem at a concrete record. -/
theorem normalize_image_malformed_aborts_witness :
    (normalize_image ⟨"abc123def456".toList, 2048, ["app:latest".toList]⟩).isPanicked = true :=
  normalize_image_malformed_aborts _ (Or.inl (by decide))

/-- C5: the three enumerated name-normalization cases hold: a single
slash-prefixed name displays without the slash, no names (absent or
empty list) display as "n/a", and two slash-prefixed names display as
the join with only the leading slash of the joined string stripped,
"a, /b" and not "a, b". -/
theorem nameCell_enumerated_cases :
    nameCell (some ["/web-1".toList]) = "web-1".toList ∧
    nameCell none = "n/a".toList ∧
    nameCell (some []) = "n/a".toList ∧
    nameCell (some ["/a".toList, "/b".toList]) = "a, /b".toList ∧
    "a, /b".toList ≠ "a, b".toList := by
  refine ⟨by decide, by decide, by decide, by decide, by decide⟩

/-- C6 counterexample: for the non-empty names list ["web"], whose
join has no leading slash, the display name is "n/a" and not the
joined string "web"; the claim that "n/a" appears only when no names
exist is false. -/
theorem nameCell_unslashed_counterexample :
    nameCell (some ["web".toList]) = "n/a".toList ∧
    "n/a".toList ≠ "web".toList := by
  refine ⟨by decide, by decide⟩

/-- C6 (amended): for every container record with a non-empty names
list, the display name is the names joined with ", " and the leading
"/" stripped when the joined string starts with "/"; when the joined
string does not start with "/" the literal "n/a" is substituted — so
"n/a" appears both when no names exist and when the joined names lack
a leading slash. -/
theorem nameCell_join_then_strip (names : List Str) (_h : names ≠ []) :
    nameCell (some names)
      = if List.isPrefixOf "/".toList (List.intercalate ", ".toList names)
        then (List.intercalate ", ".toList names).drop 1
        else "n/a".toList := by
  simp only [nameCell]
  generalize List.intercalate ", ".toList names = joined
  cases joined with
  | nil => rfl
  | cons c cs =>
    by_cases hc : c = '/'
    · subst hc
      simp [List.isPrefixOf]
    · have hc' : ¬ ('/' = c) := fun e => hc e.symm
      simp [hc, hc', List.isPrefixOf]

/-- Witness for the amended C6 theorem at the unprefixed-name case. -/
theorem nameCell_join_then_strip_witness :
    nameCell (some ["web".toList])
      = if List.isPrefixOf "/".toList (List.intercalate ", ".toList ["web".toList])
        then (List.intercalate ", ".toList ["web".toList]).drop 1
        else "n/a".toList :=
  nameCell_join_then_strip _ (by decide)

/-- C7: the image listing is issued with the include-all flag set and
no filters, and the container listing is issued with the include-all
flag set and a filter map carrying exactly the one entry mapping
"status" to the singleton value list ["running"]. -/
theorem listing_requests_flags :
    img_list_request
      = Request.listImages (some { all := true, filters := [], digests := false }) ∧
    ps_info_request
      = Request.listContainers
          (some { all := true, limit := none, size := false,
                  filters := [("status".toList, ["running".toList])] }) := by
  exact ⟨rfl, rfl⟩

/-- C8 counterexample: a successful transport listing containing a
record with an absent identifier does not return the ordinary success
result — the row construction panics and aborts the process. -/
theorem ps_info_success_counterexample :
    ps_info (Except.ok [⟨none, some ["/web-1".toList], some "nginx".toList,
        some "running".toList⟩])
      = CmdOutcome.panicked "byte index 12 is out of bounds".toList := by
  decide

/-- C8 (amended): a transport error of the running-container listing
is propagated as the value `main` returns (non-zero exit), and a
successful listing returns the ordinary success result provided every
returned record's defaulted identifier has at least 12 characters
(otherwise the row construction panics, see C1). -/
theorem ps_info_propagation (e : Str) (cs : List ContainerSummary) :
    ps_info (Except.error e) = CmdOutcome.err e ∧
    ((∀ c ∈ cs, 12 ≤ (c.id.getD []).length) →
      ∃ rows, ps_info (Except.ok cs) = CmdOutcome.ok (containerHeader :: rows)) := by
  constructor
  · rfl
  · intro h
    obtain ⟨rows, hrows⟩ := build_rows_total normalize_container cs
      (fun c hc => ⟨_, normalize_container_ok c (h c hc)⟩)
    exact ⟨rows, by simp [ps_info, hrows]⟩

/-- Witness for the amended C8 theorem at a concrete error and a
concrete well-formed listing. -/
theorem ps_info_propagation_witness :
    ps_info (Except.error "boom".toList) = CmdOutcome.err "boom".toList ∧
    ∃ rows,
      ps_info (Except.ok [⟨some "0123456789abcdef".toList, some ["/web-1".toList],
          some "nginx".toList, some "running".toList⟩])
        = CmdOutcome.ok (containerHeader :: rows) :=
  ⟨(ps_info_propagation "boom".toList []).1,
    (ps_info_propagation "boom".toList
        [⟨some "0123456789abcdef".toList, some ["/web-1".toList],
          some "nginx".toList, some "running".toList⟩]).2 (by decide)⟩

/-- C9: for every container name and every answer the transport could
have given, the kill branch behaves identically: it prints the one
confirmation line carrying the (Debug-quoted) container name and
returns the success value; no outcome-dependent distinction appears in
the requests, the output or the result. -/
theorem ps_kill_confirmation_outcome_independent (name : Str) (o : KillOutcome) :
    ps_kill name o = ps_kill name KillOutcome.success ∧
    (ps_kill name o).result = CmdOutcome.ok () ∧
    (ps_kill name o).printed = ["Kills Container ID: ".toList ++ rustDebug name] := by
  exact ⟨rfl, rfl, rfl⟩

/-- C10: whenever a listing branch emits a table, the table is exactly
the header row followed by one data row per raw record, in the order
the records were returned, and the data row at position i is the
normalization of the record at position i alone (emission itself
requires every record to normalize; a panicking record aborts the
whole branch, see C1 and C4). -/
theorem listing_tables_rowwise :
    (∀ (images : List ImageSummary) (tbl : List (List Str)),
        img_list (Except.ok images) = CmdOutcome.ok tbl →
        tbl.head? = some imageHeader ∧ tbl.length = images.length + 1 ∧
        ∀ (i : Nat) (r : ImageSummary) (row : List Str),
          images[i]? = some r → tbl[i + 1]? = some row →
          normalize_image r = RunResult.ok row) ∧
    (∀ (cs : List ContainerSummary) (tbl : List (List Str)),
        ps_info (Except.ok cs) = CmdOutcome.ok tbl →
        tbl.head? = some containerHeader ∧ tbl.length = cs.length + 1 ∧
        ∀ (i : Nat) (c : ContainerSummary) (row : List Str),
          cs[i]? = some c → tbl[i + 1]? = some row →
          normalize_container c = RunResult.ok row) := by
  constructor
  · intro images tbl h
    simp only [img_list] at h
    cases hb : build_rows normalize_image images with
    | panicked m => rw [hb] at h; simp at h
    | ok rows =>
      rw [hb] at h
      simp only [CmdOutcome.ok.injEq] at h
      subst h
      refine ⟨rfl, by simp [build_rows_length normalize_image images rows hb], ?_⟩
      intro i r row h1 h2
      have h2' : rows[i]? = some row := by simpa using h2
      exact build_rows_index normalize_image images rows i r row hb h1 h2'
  · intro cs tbl h
    simp only [ps_info] at h
    cases hb : build_rows normalize_container cs with
    | panicked m => rw [hb] at h; simp at h
    | ok rows =>
      rw [hb] at h
      simp only [CmdOutcome.ok.injEq] at h
      subst h
      refine ⟨rfl, by simp [build_rows_length normalize_container cs rows hb], ?_⟩
      intro i c row h1 h2
      have h2' : rows[i]? = some row := by simpa using h2
      exact build_rows_index normalize_container cs rows i c row hb h1 h2'

/-- Witness for the C10 theorem at a one-record image listing and a
one-record container listing. -/
theorem listing_tables_rowwise_witness :
    normalize_image
        ⟨"sha256:0123456789abcdef0123456789abcdef0123456789abcdef0123456789abcdef".toList,
          2048000, ["app:latest".toList]⟩
      = RunResult.ok ["0123456789ab".toList, "app:latest".toList, "2000".toList] ∧
    normalize_container
        ⟨some "0123456789abcdef".toList, some ["/web-1".toList],
          some "nginx".toList, some "running".toList⟩
      = RunResult.ok ["0123456789ab".toList, "web-1".toList, "nginx".toList,
          "running".toList] :=
  ⟨(listing_tables_rowwise.1
        [⟨"sha256:0123456789abcdef0123456789abcdef0123456789abcdef0123456789abcdef".toList,
          2048000, ["app:latest".toList]⟩]
        [imageHeader, ["0123456789ab".toList, "app:latest".toList, "2000".toList]]
        (by decide)).2.2 0 _ _ (by decide) (by decide),
    (listing_tables_rowwise.2
        [⟨some "0123456789abcdef".toList, some ["/web-1".toList],
          some "nginx".toList, some "running".toList⟩]
        [containerHeader, ["0123456789ab".toList, "web-1".toList, "nginx".toList,
          "running".toList]]
        (by decide)).2.2 0 _ _ (by decide) (by decide)⟩
